import Mathlib

/-!
Shallow embedding of the customs valuation and duty-assessment engine of
the tariff_api repository (src/utils/customs_computation.py), together with
proofs checking the specification claims against it.

Money is modelled as exact rationals.  Python's round(x, n) rounds half to
even on the scaled value; roundHalfEven mirrors that tie rule on ℚ, and
round2 / round4 mirror round(x, 2) / round(x, 4).
-/

/-- Rounds a rational to the nearest integer, ties to even, as Python's
built-in round does on exact values. -/
def roundHalfEven (x : ℚ) : ℤ :=
  let f := ⌊x⌋
  let r := x - f
  if r < 1/2 then f
  else if 1/2 < r then f + 1
  else if f % 2 = 0 then f else f + 1

/-- Rounds a rational to 2 decimal places, mirroring Python round(x, 2). -/
def round2 (x : ℚ) : ℚ := (roundHalfEven (x * 100) : ℚ) / 100

/-- Rounds a rational to 4 decimal places, mirroring Python round(x, 4). -/
def round4 (x : ℚ) : ℚ := (roundHalfEven (x * 10000) : ℚ) / 10000

/-- Uppercases a string character-wise, mirroring Python str.upper on the
ASCII identifiers used by the engine. -/
def strUpper (s : String) : String := ⟨s.data.map Char.toUpper⟩

/-- Lowercases a string character-wise, mirroring Python str.lower on the
ASCII identifiers used by the engine. -/
def strLower (s : String) : String := ⟨s.data.map Char.toLower⟩

/-- Boolean test that one character list occurs contiguously in another. -/
def listInfixOf (needle : List Char) : List Char → Bool
  | [] => needle.isEmpty
  | c :: t => needle.isPrefixOf (c :: t) || listInfixOf needle t

/-- Boolean substring test, mirroring the Python expression needle in hay. -/
def strContains (hay needle : String) : Bool := listInfixOf needle.data hay.data

/-- One row of the FXRate table: a dated selling rate for a currency, the
currency being stored under its full descriptive name. -/
structure FXRecord where
  date : Nat
  currency : String
  selling_rate : ℚ
deriving DecidableEq

/-- Embeds get_currency_code (src/utils/customs_computation.py lines 11-29).
The currency map associates short codes to full names, as CURRENCY_MAP does;
the reverse map is derived from it exactly as REVERSE_CURRENCY_MAP is.  An
identifier resolves to its uppercased self when that is a known code, else
through the reverse name-to-code map, else by the first code whose full name
contains the uppercased identifier as a substring; otherwise None. -/
def get_currency_code (m : List (String × String)) (currency : String) :
    Option String :=
  let c := strUpper currency
  if (m.lookup c).isSome then some c
  else
    match (m.map fun p => (p.2, p.1)).lookup c with
    | some code => some code
    | none =>
      match m.find? fun p => strContains p.2 c with
      | some p => some p.1
      | none => none

/-- Models the most-recent-date query written at line 46 of
customs_computation.py (the maximal date anywhere in the rate table,
irrespective of currency).  Used here only to phrase hypotheses about the
table: at runtime this query is never reached, see fetch_currency_rate. -/
def latestDate (fx : List FXRecord) : Option Nat := (fx.map fun r => r.date).max?

/-- Embeds fetch_currency_rate (src/utils/customs_computation.py lines
31-73) as it actually executes.  An identifier that maps to no known code
returns the 1.0 default at line 39 before the try block.  For a known code,
line 43 evaluates SessionLocal, a name the module never binds (line 4
imports it under the alias db), so a NameError is raised before any query
runs; the except handler at line 69 catches it and the 1.0 default at line
73 is returned.  The dated-record query of lines 46-60 is unreachable, so
the rate table is never consulted and the result is 1.0 for every input. -/
def fetch_currency_rate (m : List (String × String)) (_fx : List FXRecord)
    (currency : String) : ℚ :=
  match get_currency_code m currency with
  | none => 1
  | some _ => 1

/-- Counts the rate-table queries fetch_currency_rate performs at runtime
on a given identifier: zero in every case, since the unknown-identifier
path returns before the try block and the known-code path raises NameError
at the unbound SessionLocal before the date query can execute. -/
def fetch_rate_queryCount (m : List (String × String)) (_fx : List FXRecord)
    (currency : String) : Nat :=
  match get_currency_code m currency with
  | none => 0
  | some _ => 0

/-- Mirrors the dictionary returned by calculate_cif, one field per key. -/
structure CIFResult where
  cif_original : ℚ
  cif_original_currency : String
  cif_jmd : ℚ
  cif_usd : ℚ
  product_price_original : ℚ
  product_currency : String
  freight_charges_original : ℚ
  freight_currency : String
  product_price_jmd : ℚ
  freight_charges_jmd : ℚ
  product_price_usd : ℚ
  freight_charges_usd : ℚ
  insurance_original_currency : ℚ
  insurance_jmd : ℚ
  mode_of_transportation : String
  er_jmd : ℚ
  er_usd : ℚ
  er_product : ℚ
  er_freight : ℚ
deriving DecidableEq

/-- Embeds calculate_cif (src/utils/customs_computation.py lines 75-159),
parameterised by the currency map and rate table the module-level
fetch_currency_rate reads.  Every stored monetary value is rounded to two
decimals at the step that produces it, exactly as in the source; an
unrecognised transportation mode falls through to zero insurance. -/
def calculate_cif (m : List (String × String)) (fx : List FXRecord)
    (product_price : ℚ) (product_currency : String) (freight_charges : ℚ)
    (freight_currency : String) (mode_of_transportation : String) : CIFResult :=
  let jmd_rate := fetch_currency_rate m fx "JMD"
  let usd_rate := fetch_currency_rate m fx "USD"
  let product_rate := fetch_currency_rate m fx product_currency
  let freight_rate := fetch_currency_rate m fx freight_currency
  let product_price_jmd := round2 (product_price * product_rate)
  let freight_charges_jmd := round2 (freight_charges * freight_rate)
  let product_price_usd := round2 (product_price_jmd / usd_rate)
  let freight_charges_usd := round2 (freight_charges_jmd / usd_rate)
  let cif_original := round2 (product_price + freight_charges)
  let insurance_original :=
    if strLower mode_of_transportation = "air" then round2 (cif_original * (1/100))
    else if strLower mode_of_transportation = "ocean" then round2 (cif_original * (15/1000))
    else 0
  let insurance_jmd := round2 (insurance_original * product_rate)
  let cif_jmd := round2 (product_price_jmd + freight_charges_jmd + insurance_jmd)
  let cif_usd := round2 (cif_jmd / usd_rate)
  { cif_original := cif_original
    cif_original_currency :=
      if product_currency = freight_currency then product_currency else "Mixed"
    cif_jmd := cif_jmd
    cif_usd := cif_usd
    product_price_original := round2 product_price
    product_currency := product_currency
    freight_charges_original := round2 freight_charges
    freight_currency := freight_currency
    product_price_jmd := product_price_jmd
    freight_charges_jmd := freight_charges_jmd
    product_price_usd := product_price_usd
    freight_charges_usd := freight_charges_usd
    insurance_original_currency := insurance_original
    insurance_jmd := insurance_jmd
    mode_of_transportation := mode_of_transportation
    er_jmd := jmd_rate
    er_usd := usd_rate
    er_product := round4 product_rate
    er_freight := round4 freight_rate }

/-- Embeds the rate-normalisation comprehension of calculate_custom_charges
(line 183): a stored rate greater than 1 is treated as a percentage and
divided by 100; any other value, zero and negatives included, passes through
unchanged. -/
def decimalRate (v : ℚ) : ℚ := if v > 1 then v / 100 else v

/-- Embeds decimal_rates.get(k, 0): the normalised rate of a stage, zero
when the schedule has no entry for it. -/
def rateOf (tax_rates : List (String × ℚ)) (k : String) : ℚ :=
  match tax_rates.lookup k with
  | some v => decimalRate v
  | none => 0

/-- Base value 1 of the cascade: the CIF value (line 189). -/
def base_value_1 (cif : ℚ) : ℚ := round2 cif

/-- Stage ID-01 charge, computed off base 1 (line 192). -/
def ID_01_charge (tax_rates : List (String × ℚ)) (cif : ℚ) : ℚ :=
  round2 (base_value_1 cif * rateOf tax_rates "ID-01")

/-- Base value 2: base 1 plus the ID-01 charge (line 195). -/
def base_value_2 (tax_rates : List (String × ℚ)) (cif : ℚ) : ℚ :=
  round2 (base_value_1 cif + ID_01_charge tax_rates cif)

/-- Stage ASD05 charge, computed off base 2 (line 198). -/
def ASD05_charge (tax_rates : List (String × ℚ)) (cif : ℚ) : ℚ :=
  round2 (base_value_2 tax_rates cif * rateOf tax_rates "ASD05")

/-- Stage SCTA08 charge, computed off base 2 (line 201). -/
def SCTA08_charge (tax_rates : List (String × ℚ)) (cif : ℚ) : ℚ :=
  round2 (base_value_2 tax_rates cif * rateOf tax_rates "SCTA08")

/-- Stage SCTS18 charge, computed off base 2 (line 204). -/
def SCTS18_charge (tax_rates : List (String × ℚ)) (cif : ℚ) : ℚ :=
  round2 (base_value_2 tax_rates cif * rateOf tax_rates "SCTS18")

/-- Stage SCTF028 charge, computed off base 2 (line 207). -/
def SCTF028_charge (tax_rates : List (String × ℚ)) (cif : ℚ) : ℚ :=
  round2 (base_value_2 tax_rates cif * rateOf tax_rates "SCTF028")

/-- Stage SCF90 charge, computed off base 1 (line 210). -/
def SCF90_charge (tax_rates : List (String × ℚ)) (cif : ℚ) : ℚ :=
  round2 (base_value_1 cif * rateOf tax_rates "SCF90")

/-- Stage ENVL20 charge, computed off base 1 (line 213). -/
def ENVL20_charge (tax_rates : List (String × ℚ)) (cif : ℚ) : ℚ :=
  round2 (base_value_1 cif * rateOf tax_rates "ENVL20")

/-- Base value 3: the administrative fee (line 216). -/
def base_value_3 (caf : ℚ) : ℚ := round2 caf

/-- CAF charge: base 3 passed through at rate 1.0 (line 219). -/
def CAF_charge (caf : ℚ) : ℚ := round2 (base_value_3 caf * 1)

/-- Base value 4: base 2 plus the four base-2 charges, the two base-1
charges and the CAF charge (line 222). -/
def base_value_4 (tax_rates : List (String × ℚ)) (cif caf : ℚ) : ℚ :=
  round2 (base_value_2 tax_rates cif + ASD05_charge tax_rates cif +
    SCTA08_charge tax_rates cif + SCTS18_charge tax_rates cif +
    SCTF028_charge tax_rates cif + SCF90_charge tax_rates cif +
    ENVL20_charge tax_rates cif + CAF_charge caf)

/-- Stage GCT 06 charge, computed off base 4 (line 225). -/
def GCT_06_charge (tax_rates : List (String × ℚ)) (cif caf : ℚ) : ℚ :=
  round2 (base_value_4 tax_rates cif caf * rateOf tax_rates "GCT 06")

/-- Stage EXC023 charge, computed off base 4 (line 228). -/
def EXC023_charge (tax_rates : List (String × ℚ)) (cif caf : ℚ) : ℚ :=
  round2 (base_value_4 tax_rates cif caf * rateOf tax_rates "EXC023")

/-- Grand total: the sum of all ten computed charges, rounded (line 231). -/
def total_custom_charges (tax_rates : List (String × ℚ)) (cif caf : ℚ) : ℚ :=
  round2 (ID_01_charge tax_rates cif + ASD05_charge tax_rates cif +
    GCT_06_charge tax_rates cif caf + EXC023_charge tax_rates cif caf +
    SCTA08_charge tax_rates cif + SCTS18_charge tax_rates cif +
    SCTF028_charge tax_rates cif + SCF90_charge tax_rates cif +
    ENVL20_charge tax_rates cif + CAF_charge caf)

/-- The unfiltered result dictionary of calculate_custom_charges (lines
235-251), in the insertion order of the source. -/
def charges_result (tax_rates : List (String × ℚ)) (cif caf : ℚ) :
    List (String × ℚ) :=
  [("base_value_1 (CIF)", base_value_1 cif),
   ("base_value_2 (CIF + ID-01)", base_value_2 tax_rates cif),
   ("base_value_3 (CAF)", base_value_3 caf),
   ("base_value_4 (all charges)", base_value_4 tax_rates cif caf),
   ("ID-01", ID_01_charge tax_rates cif),
   ("ASD05", ASD05_charge tax_rates cif),
   ("GCT 06", GCT_06_charge tax_rates cif caf),
   ("EXC023", EXC023_charge tax_rates cif caf),
   ("SCTA08", SCTA08_charge tax_rates cif),
   ("SCTS18", SCTS18_charge tax_rates cif),
   ("SCTF028", SCTF028_charge tax_rates cif),
   ("SCF90", SCF90_charge tax_rates cif),
   ("ENVL20", ENVL20_charge tax_rates cif),
   ("CAF_charge", CAF_charge caf),
   ("total_custom_charges", total_custom_charges tax_rates cif caf)]

/-- Embeds calculate_custom_charges (lines 177-252): the result dictionary
filtered to strictly positive values, returned together with the raw tax
rates, as the source's final line does. -/
def calculate_custom_charges (tax_rates : List (String × ℚ)) (cif caf : ℚ) :
    List (String × ℚ) × List (String × ℚ) :=
  ((charges_result tax_rates cif caf).filter fun p => decide (0 < p.2), tax_rates)

/-- Embeds determine_caf_rate (lines 254-304): an empty transaction type is
rejected first; a motor-vehicle package always gets the fixed 57500 fee; the
CIF value is converted to USD unless already denominated in USD; IMS4 pays
2500 below 5000 USD and 10000 at or above it; IM4 and every other
transaction type pay 10000. -/
def determine_caf_rate (m : List (String × String)) (fx : List FXRecord)
    (transaction_type package_type : String) (cif_value : ℚ)
    (input_currency : String) : Except String ℚ :=
  if transaction_type = "" then Except.error "Transaction type cannot be None"
  else if strLower package_type = "motor vehicle" then Except.ok 57500
  else
    let cif_value_usd :=
      if strUpper input_currency ≠ "USD" then
        round2 (cif_value *
          (fetch_currency_rate m fx input_currency / fetch_currency_rate m fx "USD"))
      else cif_value
    if strUpper transaction_type = "IMS4" then
      if cif_value_usd < 5000 then Except.ok 2500 else Except.ok 10000
    else if strUpper transaction_type = "IM4" then Except.ok 10000
    else Except.ok 10000

/-- Currency map used by the concrete scenarios: USD under its full name. -/
def usdMap : List (String × String) := [("USD", "U.S. DOLLAR")]

/-- Rate table used by the concrete scenarios: one dated USD selling rate of
155 base units per USD. -/
def usdFX : List FXRecord := [⟨1, "U.S. DOLLAR", 155⟩]

theorem roundHalfEven_intCast (n : ℤ) : roundHalfEven ((n : ℚ)) = n := by
  unfold roundHalfEven
  rw [Int.floor_intCast]
  norm_num

theorem round2_eval_lt (x : ℚ) (n : ℤ) (h1 : (n : ℚ) ≤ x * 100)
    (h2 : x * 100 < (n : ℚ) + 1/2) : round2 x = (n : ℚ) / 100 := by
  unfold round2 roundHalfEven
  have hf : ⌊x * 100⌋ = n := by
    rw [Int.floor_eq_iff]
    exact ⟨h1, lt_of_lt_of_le h2 (by norm_num)⟩
  rw [hf]
  have hr : x * 100 - (n : ℚ) < 1/2 := by linarith
  simp only [if_pos hr]

theorem round2_eval (x : ℚ) (n : ℤ) (h : x * 100 = (n : ℚ)) :
    round2 x = (n : ℚ) / 100 := by
  apply round2_eval_lt x n (le_of_eq h.symm)
  rw [h]
  norm_num

theorem round2_zero : round2 0 = 0 := by
  rw [round2_eval 0 0 (by norm_num)]
  norm_num

theorem round2_hundredth (n : ℤ) : round2 ((n : ℚ) / 100) = (n : ℚ) / 100 :=
  round2_eval _ n (by field_simp)

theorem round2_den (x : ℚ) : ∃ n : ℤ, round2 x = (n : ℚ) / 100 := ⟨_, rfl⟩

theorem round2_round2 (x : ℚ) : round2 (round2 x) = round2 x := by
  obtain ⟨n, hn⟩ := round2_den x
  rw [hn, round2_hundredth]

theorem lookup_val_mem : ∀ (tr : List (String × ℚ)) (k : String) (v : ℚ),
    tr.lookup k = some v → ∃ p ∈ tr, p.2 = v := by
  intro tr k v
  induction tr with
  | nil => intro h; cases h
  | cons a t ih =>
    obtain ⟨a1, a2⟩ := a
    intro h
    simp only [List.lookup] at h
    cases hak : (k == a1) with
    | true =>
      rw [hak] at h
      simp only [Option.some.injEq] at h
      exact ⟨(a1, a2), List.mem_cons_self _ _, h⟩
    | false =>
      rw [hak] at h
      obtain ⟨p, hp, hv⟩ := ih h
      exact ⟨p, List.mem_cons_of_mem _ hp, hv⟩

theorem rateOf_zero (tr : List (String × ℚ)) (k : String)
    (hz : ∀ p ∈ tr, p.2 = 0) : rateOf tr k = 0 := by
  cases hl : tr.lookup k with
  | none => simp only [rateOf, hl]
  | some v =>
    obtain ⟨p, hp, hv⟩ := lookup_val_mem tr k v hl
    have hv0 : v = 0 := by rw [← hv]; exact hz p hp
    simp only [rateOf, hl, hv0, decimalRate]
    rw [if_neg (by norm_num)]

theorem allzero_facts (tr : List (String × ℚ)) (cif : ℚ)
    (hz : ∀ p ∈ tr, p.2 = 0) :
    ID_01_charge tr cif = 0 ∧ ASD05_charge tr cif = 0 ∧ SCTA08_charge tr cif = 0 ∧
    SCTS18_charge tr cif = 0 ∧ SCTF028_charge tr cif = 0 ∧ SCF90_charge tr cif = 0 ∧
    ENVL20_charge tr cif = 0 ∧ CAF_charge 0 = 0 ∧ GCT_06_charge tr cif 0 = 0 ∧
    EXC023_charge tr cif 0 = 0 ∧ total_custom_charges tr cif 0 = 0 ∧
    base_value_2 tr cif = round2 cif ∧ base_value_4 tr cif 0 = round2 cif := by
  have hr : ∀ k, rateOf tr k = 0 := fun k => rateOf_zero tr k hz
  have hid : ID_01_charge tr cif = 0 := by
    unfold ID_01_charge; rw [hr, mul_zero, round2_zero]
  have hb2 : base_value_2 tr cif = round2 cif := by
    unfold base_value_2
    rw [hid, add_zero]
    exact round2_round2 cif
  have hasd : ASD05_charge tr cif = 0 := by
    unfold ASD05_charge; rw [hr, mul_zero, round2_zero]
  have hscta : SCTA08_charge tr cif = 0 := by
    unfold SCTA08_charge; rw [hr, mul_zero, round2_zero]
  have hscts : SCTS18_charge tr cif = 0 := by
    unfold SCTS18_charge; rw [hr, mul_zero, round2_zero]
  have hsctf : SCTF028_charge tr cif = 0 := by
    unfold SCTF028_charge; rw [hr, mul_zero, round2_zero]
  have hscf : SCF90_charge tr cif = 0 := by
    unfold SCF90_charge; rw [hr, mul_zero, round2_zero]
  have henv : ENVL20_charge tr cif = 0 := by
    unfold ENVL20_charge; rw [hr, mul_zero, round2_zero]
  have hcaf : CAF_charge (0:ℚ) = 0 := by
    unfold CAF_charge base_value_3
    rw [round2_zero, zero_mul, round2_zero]
  have hb4 : base_value_4 tr cif 0 = round2 cif := by
    unfold base_value_4
    rw [hb2, hasd, hscta, hscts, hsctf, hscf, henv, hcaf]
    simp only [add_zero]
    exact round2_round2 cif
  have hgct : GCT_06_charge tr cif 0 = 0 := by
    unfold GCT_06_charge; rw [hr, mul_zero, round2_zero]
  have hexc : EXC023_charge tr cif 0 = 0 := by
    unfold EXC023_charge; rw [hr, mul_zero, round2_zero]
  have htot : total_custom_charges tr cif 0 = 0 := by
    unfold total_custom_charges
    rw [hid, hasd, hgct, hexc, hscta, hscts, hsctf, hscf, henv, hcaf]
    have : (0:ℚ) + 0 + 0 + 0 + 0 + 0 + 0 + 0 + 0 + 0 = 0 := by norm_num
    rw [this, round2_zero]
  exact ⟨hid, hasd, hscta, hscts, hsctf, hscf, henv, hcaf, hgct, hexc, htot, hb2, hb4⟩

theorem lookup_filter_none (k : String) : ∀ (l : List (String × ℚ)),
    (∀ p ∈ l, p.1 = k → p.2 ≤ 0) →
    (l.filter fun p => decide (0 < p.2)).lookup k = none := by
  intro l
  induction l with
  | nil => intro h; rfl
  | cons a t ih =>
    intro h
    by_cases ha : 0 < a.2
    · have hd : decide (0 < a.2) = true := decide_eq_true ha
      simp only [List.filter, hd]
      obtain ⟨a1, a2⟩ := a
      simp only [List.lookup]
      cases hak : (k == a1) with
      | true =>
        exfalso
        have hk : a1 = k := (eq_of_beq hak).symm
        have hle : a2 ≤ 0 := h (a1, a2) (List.mem_cons_self _ _) hk
        exact absurd ha (not_lt.mpr hle)
      | false =>
        exact ih fun p hp => h p (List.mem_cons_of_mem _ hp)
    · have hd : decide (0 < a.2) = false := decide_eq_false ha
      simp only [List.filter, hd]
      exact ih fun p hp => h p (List.mem_cons_of_mem _ hp)

/-- C1 counterexample: the claim says rate resolution fails with UnknownCurrency for an unmappable identifier and with RateNotFound for a known currency lacking a record at the latest date, never returning a default of 1.0; the source instead returns the default rate 1.0 in both situations. -/
theorem C1_counterexample :
    fetch_currency_rate usdMap usdFX "XYZ" = 1 ∧
    get_currency_code usdMap "XYZ" = none ∧
    fetch_currency_rate [("USD", "U.S. DOLLAR"), ("EUR", "EURO")] usdFX "EUR" = 1 ∧
    get_currency_code [("USD", "U.S. DOLLAR"), ("EUR", "EURO")] "EUR" = some "EUR" :=
  ⟨rfl, rfl, rfl, rfl⟩

/-- C1 amended: rate resolution never fails; it returns the default rate 1.0 when the identifier cannot be mapped to a known currency, when the rate table is empty, and when no record for the currency exists at the most recent date in the table. -/
theorem C1_amended :
    (∀ m fx c, get_currency_code m c = none → fetch_currency_rate m fx c = 1) ∧
    (∀ m fx c code, get_currency_code m c = some code → latestDate fx = none →
      fetch_currency_rate m fx c = 1) ∧
    (∀ m fx c code nm d, get_currency_code m c = some code →
      latestDate fx = some d → m.lookup code = some nm →
      fx.find? (fun r => r.date == d && r.currency == nm) = none →
      fetch_currency_rate m fx c = 1) := by
  refine ⟨?_, ?_, ?_⟩
  · intro m fx c h
    simp only [fetch_currency_rate, h]
  · intro m fx c code h h2
    simp only [fetch_currency_rate, h, h2]
  · intro m fx c code nm d h h2 h3 h4
    simp only [fetch_currency_rate, h, h2, h3, h4]

/-- C1 witness: the amended theorem instantiated at an unknown identifier, at an empty rate table, and at a known currency with no record at the latest date. -/
theorem C1_witness :
    fetch_currency_rate usdMap [] "ZZZ" = 1 ∧
    fetch_currency_rate usdMap [] "USD" = 1 ∧
    fetch_currency_rate usdMap [⟨2, "EURO", 5⟩] "USD" = 1 :=
  ⟨C1_amended.1 usdMap [] "ZZZ" rfl,
   C1_amended.2.1 usdMap [] "USD" "USD" rfl rfl,
   C1_amended.2.2 usdMap [⟨2, "EURO", 5⟩] "USD" "USD" "U.S. DOLLAR" 2 rfl rfl rfl rfl⟩

/-- C2 counterexample: the claim says an unrecognized transport mode such as rail fails with InvalidTransportMode and never silently gets zero insurance; the source silently assigns zero insurance for mode rail and returns a complete CIF result, here with every rate resolving to the 1.0 default, so cif_jmd = 1100. -/
theorem C2_counterexample :
    (calculate_cif usdMap usdFX 1000 "USD" 100 "USD" "rail").insurance_original_currency = 0 ∧
    (calculate_cif usdMap usdFX 1000 "USD" 100 "USD" "rail").cif_original = 1100 ∧
    (calculate_cif usdMap usdFX 1000 "USD" 100 "USD" "rail").cif_jmd = 1100 := by
  have hu : fetch_currency_rate usdMap usdFX "USD" = 1 := rfl
  have h1 : round2 ((1000:ℚ) * 1) = 1000 := by
    rw [round2_eval _ 100000 (by norm_num)]; norm_num
  have h2 : round2 ((100:ℚ) * 1) = 100 := by
    rw [round2_eval _ 10000 (by norm_num)]; norm_num
  have h3 : round2 ((1000:ℚ) + 100) = 1100 := by
    rw [round2_eval _ 110000 (by norm_num)]; norm_num
  have h0 : round2 ((0:ℚ) * 1) = 0 := by rw [zero_mul, round2_zero]
  have h6 : round2 ((1000:ℚ) + 100 + 0) = 1100 := by
    rw [round2_eval _ 110000 (by norm_num)]; norm_num
  refine ⟨?_, ?_, ?_⟩
  · simp only [calculate_cif, hu]
    rw [if_neg (by decide : ¬ strLower "rail" = "air"),
      if_neg (by decide : ¬ strLower "rail" = "ocean")]
  · simp only [calculate_cif]
    rw [h3]
  · simp only [calculate_cif, hu]
    rw [if_neg (by decide : ¬ strLower "rail" = "air"),
      if_neg (by decide : ¬ strLower "rail" = "ocean"), h1, h2, h0, h6]

/-- C2 amended: the insurance rate is 1 percent of cif_original for air and 1.5 percent for ocean, and any unrecognized transport mode is silently given zero insurance while a full CIF result is still returned. -/
theorem C2_amended :
    ∀ m fx pp (pc : String) fc (fcc : String) (mode : String),
      (strLower mode = "air" →
        (calculate_cif m fx pp pc fc fcc mode).insurance_original_currency =
          round2 (round2 (pp + fc) * (1/100))) ∧
      (strLower mode = "ocean" →
        (calculate_cif m fx pp pc fc fcc mode).insurance_original_currency =
          round2 (round2 (pp + fc) * (15/1000))) ∧
      (strLower mode ≠ "air" → strLower mode ≠ "ocean" →
        (calculate_cif m fx pp pc fc fcc mode).insurance_original_currency = 0 ∧
        (calculate_cif m fx pp pc fc fcc mode).cif_jmd =
          round2 (round2 (pp * fetch_currency_rate m fx pc) +
            round2 (fc * fetch_currency_rate m fx fcc) +
            round2 (0 * fetch_currency_rate m fx pc))) := by
  intro m fx pp pc fc fcc mode
  refine ⟨?_, ?_, ?_⟩
  · intro h
    simp only [calculate_cif]
    rw [if_pos h]
  · intro h
    simp only [calculate_cif]
    rw [if_neg (h ▸ (by decide : ¬ ("ocean" : String) = "air") : ¬ strLower mode = "air")]
    rw [if_pos h]
  · intro h1 h2
    constructor
    · simp only [calculate_cif]
      rw [if_neg h1, if_neg h2]
    · simp only [calculate_cif]
      rw [if_neg h1, if_neg h2]

/-- C2 witness: the amended theorem instantiated at mode rail (zero insurance, full result) and at mode air (1 percent insurance). -/
theorem C2_witness :
    (calculate_cif usdMap usdFX 5 "USD" 5 "USD" "rail").insurance_original_currency = 0 ∧
    (calculate_cif usdMap usdFX 5 "USD" 5 "USD" "air").insurance_original_currency =
      round2 (round2 ((5:ℚ) + 5) * (1/100)) :=
  ⟨((C2_amended usdMap usdFX 5 "USD" 5 "USD" "rail").2.2 (by decide) (by decide)).1,
   (C2_amended usdMap usdFX 5 "USD" 5 "USD" "air").1 (by decide)⟩

/-- C3 code behavior at the failing input: for product price 1000 USD, freight 100 USD, air transport, with a dated U.S. DOLLAR record at selling rate 155.00 present in the table, the source still resolves the USD rate to the 1.0 default (its rate lookup dead-ends in a NameError at the unbound SessionLocal), so the claimed figures derived from a 155.00 rate are never produced: the code computes product_price_jmd = 1000, freight_charges_jmd = 100, insurance_jmd = 11.00, cif_jmd = 1111.00 and cif_usd = 1111.00, while cif_original = 1100 tagged USD and insurance_original = 11.00 do hold. -/
theorem C3_code_behavior :
    (usdFX.find? fun r => r.date == 1 && r.currency == "U.S. DOLLAR") =
      some ⟨1, "U.S. DOLLAR", 155⟩ ∧
    fetch_currency_rate usdMap usdFX "USD" = 1 ∧
    (calculate_cif usdMap usdFX 1000 "USD" 100 "USD" "air").cif_original = 1100 ∧
    (calculate_cif usdMap usdFX 1000 "USD" 100 "USD" "air").cif_original_currency = "USD" ∧
    (calculate_cif usdMap usdFX 1000 "USD" 100 "USD" "air").insurance_original_currency = 11 ∧
    (calculate_cif usdMap usdFX 1000 "USD" 100 "USD" "air").product_price_jmd = 1000 ∧
    (calculate_cif usdMap usdFX 1000 "USD" 100 "USD" "air").freight_charges_jmd = 100 ∧
    (calculate_cif usdMap usdFX 1000 "USD" 100 "USD" "air").insurance_jmd = 11 ∧
    (calculate_cif usdMap usdFX 1000 "USD" 100 "USD" "air").cif_jmd = 1111 ∧
    (calculate_cif usdMap usdFX 1000 "USD" 100 "USD" "air").cif_usd = 1111 := by
  have hu : fetch_currency_rate usdMap usdFX "USD" = 1 := rfl
  have hmode : strLower "air" = "air" := rfl
  have h1 : round2 ((1000:ℚ) * 1) = 1000 := by
    rw [round2_eval _ 100000 (by norm_num)]; norm_num
  have h2 : round2 ((100:ℚ) * 1) = 100 := by
    rw [round2_eval _ 10000 (by norm_num)]; norm_num
  have h3 : round2 ((1000:ℚ) + 100) = 1100 := by
    rw [round2_eval _ 110000 (by norm_num)]; norm_num
  have h4 : round2 ((1100:ℚ) * (1/100)) = 11 := by
    rw [round2_eval _ 1100 (by norm_num)]; norm_num
  have h5 : round2 ((11:ℚ) * 1) = 11 := by
    rw [round2_eval _ 1100 (by norm_num)]; norm_num
  have h6 : round2 ((1000:ℚ) + 100 + 11) = 1111 := by
    rw [round2_eval _ 111100 (by norm_num)]; norm_num
  have h7 : round2 ((1111:ℚ) / 1) = 1111 := by
    rw [round2_eval _ 111100 (by norm_num)]; norm_num
  refine ⟨rfl, hu, ?_, ?_, ?_, ?_, ?_, ?_, ?_, ?_⟩
  · simp only [calculate_cif]
    rw [h3]
  · simp [calculate_cif]
  · simp only [calculate_cif, hmode]
    rw [if_true, h3, h4]
  · simp only [calculate_cif, hu]
    rw [h1]
  · simp only [calculate_cif, hu]
    rw [h2]
  · simp only [calculate_cif, hu, hmode]
    rw [if_true, h3, h4, h5]
  · simp only [calculate_cif, hu, hmode]
    rw [if_true, h3, h4, h1, h2, h5, h6]
  · simp only [calculate_cif, hu, hmode]
    rw [if_true, h3, h4, h1, h2, h5, h6, h7]

/-- C4: the fixed cascade computes the stage A charge off base1, base2 as base1 plus that charge, four sibling charges off base2, two charges off base1, CAF passed through at rate 1.0, base4 as base2 plus those six charges plus CAF, and two final charges off base4; on a schedule with only stage A rate 10 percent, cifBase 100000 and administrative fee 10000, the stage A charge is 10000, base2 is 110000, base4 is 120000 and the total is 20000. -/
theorem C4_cascade :
    (∀ tr cif, base_value_2 tr cif = round2 (base_value_1 cif + ID_01_charge tr cif)) ∧
    (∀ tr cif, ASD05_charge tr cif = round2 (base_value_2 tr cif * rateOf tr "ASD05")) ∧
    (∀ tr cif, SCF90_charge tr cif = round2 (base_value_1 cif * rateOf tr "SCF90")) ∧
    (∀ caf : ℚ, CAF_charge caf = round2 (round2 caf * 1)) ∧
    (∀ tr cif caf, base_value_4 tr cif caf = round2 (base_value_2 tr cif +
      ASD05_charge tr cif + SCTA08_charge tr cif + SCTS18_charge tr cif +
      SCTF028_charge tr cif + SCF90_charge tr cif + ENVL20_charge tr cif +
      CAF_charge caf)) ∧
    ID_01_charge [("ID-01", 10)] 100000 = 10000 ∧
    base_value_2 [("ID-01", 10)] 100000 = 110000 ∧
    base_value_4 [("ID-01", 10)] 100000 10000 = 120000 ∧
    total_custom_charges [("ID-01", 10)] 100000 10000 = 20000 := by
  have hb1 : base_value_1 (100000:ℚ) = 100000 := by
    unfold base_value_1; rw [round2_eval _ 10000000 (by norm_num)]; norm_num
  have hr1 : rateOf [("ID-01", (10:ℚ))] "ID-01" = 10/100 := by
    have e : rateOf [("ID-01", (10:ℚ))] "ID-01" = decimalRate 10 := rfl
    rw [e]
    unfold decimalRate
    rw [if_pos (by norm_num : (10:ℚ) > 1)]
  have hid : ID_01_charge [("ID-01", (10:ℚ))] 100000 = 10000 := by
    unfold ID_01_charge
    rw [hb1, hr1, round2_eval _ 1000000 (by norm_num)]; norm_num
  have hb2 : base_value_2 [("ID-01", (10:ℚ))] 100000 = 110000 := by
    unfold base_value_2
    rw [hb1, hid, round2_eval _ 11000000 (by norm_num)]; norm_num
  have hasd : ASD05_charge [("ID-01", (10:ℚ))] 100000 = 0 := by
    unfold ASD05_charge
    have ea : rateOf [("ID-01", (10:ℚ))] "ASD05" = 0 := rfl
    rw [ea, mul_zero, round2_zero]
  have hscta : SCTA08_charge [("ID-01", (10:ℚ))] 100000 = 0 := by
    unfold SCTA08_charge
    have eb : rateOf [("ID-01", (10:ℚ))] "SCTA08" = 0 := rfl
    rw [eb, mul_zero, round2_zero]
  have hscts : SCTS18_charge [("ID-01", (10:ℚ))] 100000 = 0 := by
    unfold SCTS18_charge
    have ec : rateOf [("ID-01", (10:ℚ))] "SCTS18" = 0 := rfl
    rw [ec, mul_zero, round2_zero]
  have hsctf : SCTF028_charge [("ID-01", (10:ℚ))] 100000 = 0 := by
    unfold SCTF028_charge
    have ed : rateOf [("ID-01", (10:ℚ))] "SCTF028" = 0 := rfl
    rw [ed, mul_zero, round2_zero]
  have hscf : SCF90_charge [("ID-01", (10:ℚ))] 100000 = 0 := by
    unfold SCF90_charge
    have ee : rateOf [("ID-01", (10:ℚ))] "SCF90" = 0 := rfl
    rw [ee, mul_zero, round2_zero]
  have henv : ENVL20_charge [("ID-01", (10:ℚ))] 100000 = 0 := by
    unfold ENVL20_charge
    have ef : rateOf [("ID-01", (10:ℚ))] "ENVL20" = 0 := rfl
    rw [ef, mul_zero, round2_zero]
  have hcaf : CAF_charge (10000:ℚ) = 10000 := by
    unfold CAF_charge base_value_3
    rw [round2_eval (10000:ℚ) 1000000 (by norm_num)]
    rw [mul_one, round2_hundredth]; norm_num
  have hb4 : base_value_4 [("ID-01", (10:ℚ))] 100000 10000 = 120000 := by
    unfold base_value_4
    rw [hb2, hasd, hscta, hscts, hsctf, hscf, henv, hcaf]
    rw [show (110000:ℚ) + 0 + 0 + 0 + 0 + 0 + 0 + 10000 = 120000 by norm_num]
    rw [round2_eval _ 12000000 (by norm_num)]; norm_num
  have hgct : GCT_06_charge [("ID-01", (10:ℚ))] 100000 10000 = 0 := by
    unfold GCT_06_charge
    have eg : rateOf [("ID-01", (10:ℚ))] "GCT 06" = 0 := rfl
    rw [eg, mul_zero, round2_zero]
  have hexc : EXC023_charge [("ID-01", (10:ℚ))] 100000 10000 = 0 := by
    unfold EXC023_charge
    have eh : rateOf [("ID-01", (10:ℚ))] "EXC023" = 0 := rfl
    rw [eh, mul_zero, round2_zero]
  have htot : total_custom_charges [("ID-01", (10:ℚ))] 100000 10000 = 20000 := by
    unfold total_custom_charges
    rw [hid, hasd, hgct, hexc, hscta, hscts, hsctf, hscf, henv, hcaf]
    rw [show (10000:ℚ) + 0 + 0 + 0 + 0 + 0 + 0 + 0 + 0 + 10000 = 20000 by norm_num]
    rw [round2_eval _ 2000000 (by norm_num)]; norm_num
  exact ⟨fun tr cif => rfl, fun tr cif => rfl, fun tr cif => rfl, fun caf => rfl,
    fun tr cif caf => rfl, hid, hb2, hb4, htot⟩

/-- C5: for every tax schedule, cifBase and administrative fee, the computed total equals the exact sum of all ten stage charges (stage A, the six ad-valorem charges, CAF, and the two base4-derived charges), before any positivity filtering of the returned mapping. -/
theorem C5_total_eq_sum : ∀ (tr : List (String × ℚ)) (cif caf : ℚ),
    total_custom_charges tr cif caf =
      ID_01_charge tr cif + ASD05_charge tr cif + GCT_06_charge tr cif caf +
      EXC023_charge tr cif caf + SCTA08_charge tr cif + SCTS18_charge tr cif +
      SCTF028_charge tr cif + SCF90_charge tr cif + ENVL20_charge tr cif +
      CAF_charge caf := by
  intro tr cif caf
  obtain ⟨a, ha⟩ : ∃ n : ℤ, ID_01_charge tr cif = (n:ℚ)/100 := ⟨_, rfl⟩
  obtain ⟨b, hb⟩ : ∃ n : ℤ, ASD05_charge tr cif = (n:ℚ)/100 := ⟨_, rfl⟩
  obtain ⟨c, hc⟩ : ∃ n : ℤ, GCT_06_charge tr cif caf = (n:ℚ)/100 := ⟨_, rfl⟩
  obtain ⟨d, hd⟩ : ∃ n : ℤ, EXC023_charge tr cif caf = (n:ℚ)/100 := ⟨_, rfl⟩
  obtain ⟨e, he⟩ : ∃ n : ℤ, SCTA08_charge tr cif = (n:ℚ)/100 := ⟨_, rfl⟩
  obtain ⟨f, hf⟩ : ∃ n : ℤ, SCTS18_charge tr cif = (n:ℚ)/100 := ⟨_, rfl⟩
  obtain ⟨g, hg⟩ : ∃ n : ℤ, SCTF028_charge tr cif = (n:ℚ)/100 := ⟨_, rfl⟩
  obtain ⟨i, hi⟩ : ∃ n : ℤ, SCF90_charge tr cif = (n:ℚ)/100 := ⟨_, rfl⟩
  obtain ⟨j, hj⟩ : ∃ n : ℤ, ENVL20_charge tr cif = (n:ℚ)/100 := ⟨_, rfl⟩
  obtain ⟨k, hk⟩ : ∃ n : ℤ, CAF_charge caf = (n:ℚ)/100 := ⟨_, rfl⟩
  unfold total_custom_charges
  rw [ha, hb, hc, hd, he, hf, hg, hi, hj, hk]
  have hsum : (a:ℚ)/100 + (b:ℚ)/100 + (c:ℚ)/100 + (d:ℚ)/100 + (e:ℚ)/100 +
      (f:ℚ)/100 + (g:ℚ)/100 + (i:ℚ)/100 + (j:ℚ)/100 + (k:ℚ)/100 =
      ((a + b + c + d + e + f + g + i + j + k : ℤ) : ℚ)/100 := by
    push_cast
    ring
  rw [hsum, round2_hundredth]

/-- C6 counterexample: the claim says an all-zero schedule with administrative fee 0 yields an empty charge mapping for every cifBase; at cifBase 100 the returned mapping still contains the three positive base-value entries. -/
theorem C6_counterexample :
    (calculate_custom_charges [("ID-01", 0)] 100 0).1 =
      [("base_value_1 (CIF)", 100), ("base_value_2 (CIF + ID-01)", 100),
       ("base_value_4 (all charges)", 100)] ∧
    (calculate_custom_charges [("ID-01", 0)] 100 0).1 ≠ [] := by
  have hz : ∀ p ∈ [(("ID-01" : String), (0:ℚ))], p.2 = 0 := by
    intro p hp
    rw [List.mem_singleton.mp hp]
  obtain ⟨hid, hasd, hscta, hscts, hsctf, hscf, henv, hcaf, hgct, hexc, htot, hb2, hb4⟩ :=
    allzero_facts [("ID-01", 0)] 100 hz
  have hr : round2 (100:ℚ) = 100 := by
    rw [round2_eval _ 10000 (by norm_num)]; norm_num
  have hb1 : base_value_1 (100:ℚ) = 100 := by
    unfold base_value_1; exact hr
  have hb3 : base_value_3 (0:ℚ) = 0 := by
    unfold base_value_3; exact round2_zero
  rw [hr] at hb2 hb4
  have dt : decide ((0:ℚ) < 100) = true := decide_eq_true (by norm_num)
  have d0 : decide ((0:ℚ) < 0) = false := decide_eq_false (by norm_num)
  have hmain : (calculate_custom_charges [("ID-01", 0)] 100 0).1 =
      [("base_value_1 (CIF)", 100), ("base_value_2 (CIF + ID-01)", 100),
       ("base_value_4 (all charges)", 100)] := by
    simp only [calculate_custom_charges, charges_result, hb1, hb2, hb3, hb4, hid,
      hasd, hscta, hscts, hsctf, hscf, henv, hcaf, hgct, hexc, htot,
      List.filter, dt, d0]
  refine ⟨hmain, ?_⟩
  rw [hmain]
  simp

/-- C6 amended: with an all-zero tax schedule and administrative fee 0 every stage charge and the total are 0, and the returned mapping contains exactly the base-value entries, which are present precisely when the rounded cifBase is positive (so the mapping is empty only for non-positive rounded cifBase). -/
theorem C6_amended : ∀ (tr : List (String × ℚ)) (cif : ℚ),
    (∀ p ∈ tr, p.2 = 0) →
    (ID_01_charge tr cif = 0 ∧ ASD05_charge tr cif = 0 ∧ SCTA08_charge tr cif = 0 ∧
      SCTS18_charge tr cif = 0 ∧ SCTF028_charge tr cif = 0 ∧ SCF90_charge tr cif = 0 ∧
      ENVL20_charge tr cif = 0 ∧ CAF_charge 0 = 0 ∧ GCT_06_charge tr cif 0 = 0 ∧
      EXC023_charge tr cif 0 = 0) ∧
    total_custom_charges tr cif 0 = 0 ∧
    (calculate_custom_charges tr cif 0).1 =
      (if 0 < round2 cif then
        [("base_value_1 (CIF)", round2 cif), ("base_value_2 (CIF + ID-01)", round2 cif),
         ("base_value_4 (all charges)", round2 cif)]
       else []) := by
  intro tr cif hz
  obtain ⟨hid, hasd, hscta, hscts, hsctf, hscf, henv, hcaf, hgct, hexc, htot, hb2, hb4⟩ :=
    allzero_facts tr cif hz
  refine ⟨⟨hid, hasd, hscta, hscts, hsctf, hscf, henv, hcaf, hgct, hexc⟩, htot, ?_⟩
  have hb1 : base_value_1 cif = round2 cif := rfl
  have hb3 : base_value_3 (0:ℚ) = 0 := round2_zero
  have d0 : decide ((0:ℚ) < 0) = false := decide_eq_false (by norm_num)
  by_cases hpos : 0 < round2 cif
  · rw [if_pos hpos]
    have dt : decide ((0:ℚ) < round2 cif) = true := decide_eq_true hpos
    simp only [calculate_custom_charges, charges_result, hb1, hb2, hb3, hb4, hid,
      hasd, hscta, hscts, hsctf, hscf, henv, hcaf, hgct, hexc, htot,
      List.filter, dt, d0]
  · rw [if_neg hpos]
    have df : decide ((0:ℚ) < round2 cif) = false := decide_eq_false hpos
    simp only [calculate_custom_charges, charges_result, hb1, hb2, hb3, hb4, hid,
      hasd, hscta, hscts, hsctf, hscf, henv, hcaf, hgct, hexc, htot,
      List.filter, df, d0]

/-- C6 witness: the amended theorem instantiated at the all-zero schedule with cifBase 100. -/
theorem C6_witness :
    total_custom_charges [("ID-01", 0)] 100 0 = 0 ∧
    (calculate_custom_charges [("ID-01", 0)] 100 0).1 =
      [("base_value_1 (CIF)", 100), ("base_value_2 (CIF + ID-01)", 100),
       ("base_value_4 (all charges)", 100)] := by
  have hz : ∀ p ∈ [(("ID-01" : String), (0:ℚ))], p.2 = 0 := by
    intro p hp
    rw [List.mem_singleton.mp hp]
  have h := C6_amended [("ID-01", 0)] 100 hz
  have hr : round2 (100:ℚ) = 100 := by
    rw [round2_eval _ 10000 (by norm_num)]; norm_num
  refine ⟨h.2.1, ?_⟩
  rw [h.2.2, hr, if_pos (by norm_num : (0:ℚ) < 100)]

/-- C7 counterexample: the claim says a motor-vehicle package always gets the fixed fee independent of transaction type; the source checks for an empty transaction type first and raises even when the package is motor vehicle. -/
theorem C7_counterexample :
    determine_caf_rate [] [] "" "motor vehicle" 1000 "USD" =
      Except.error "Transaction type cannot be None" ∧
    determine_caf_rate [] [] "" "motor vehicle" 1000 "USD" ≠ Except.ok 57500 := by
  have he : determine_caf_rate [] [] "" "motor vehicle" 1000 "USD" =
      Except.error "Transaction type cannot be None" := rfl
  refine ⟨he, ?_⟩
  rw [he]
  intro hcon
  exact Except.noConfusion hcon

/-- C7 amended: an empty transaction type always fails first; for non-empty transaction types, a motor-vehicle package gets the fixed 57500 fee regardless of type and CIF, the IMS4 household type pays 2500 strictly below 5000 USD and 10000 at or above that threshold, and IM4 as well as any other non-empty type pays the commercial 10000 fee. -/
theorem C7_amended :
    ∀ m fx (tt pt : String) (cif : ℚ) (ic : String),
      (tt = "" → determine_caf_rate m fx tt pt cif ic =
        Except.error "Transaction type cannot be None") ∧
      (tt ≠ "" → strLower pt = "motor vehicle" →
        determine_caf_rate m fx tt pt cif ic = Except.ok 57500) ∧
      (tt ≠ "" → strLower pt ≠ "motor vehicle" → strUpper ic = "USD" →
        strUpper tt = "IMS4" →
        (cif < 5000 → determine_caf_rate m fx tt pt cif ic = Except.ok 2500) ∧
        (5000 ≤ cif → determine_caf_rate m fx tt pt cif ic = Except.ok 10000)) ∧
      (tt ≠ "" → strLower pt ≠ "motor vehicle" → strUpper tt ≠ "IMS4" →
        determine_caf_rate m fx tt pt cif ic = Except.ok 10000) := by
  intro m fx tt pt cif ic
  refine ⟨?_, ?_, ?_, ?_⟩
  · intro h
    simp only [determine_caf_rate]
    rw [if_pos h]
  · intro h1 h2
    simp only [determine_caf_rate]
    rw [if_neg h1, if_pos h2]
  · intro h1 h2 h3 h4
    constructor
    · intro h5
      simp only [determine_caf_rate]
      rw [if_neg h1, if_neg h2,
        if_neg (show ¬ strUpper ic ≠ "USD" from fun hcon => hcon h3), if_pos h4, if_pos h5]
    · intro h5
      simp only [determine_caf_rate]
      rw [if_neg h1, if_neg h2,
        if_neg (show ¬ strUpper ic ≠ "USD" from fun hcon => hcon h3), if_pos h4,
        if_neg (not_lt.mpr h5)]
  · intro h1 h2 h3
    simp only [determine_caf_rate]
    rw [if_neg h1, if_neg h2, if_neg h3]
    by_cases h4 : strUpper tt = "IM4"
    · rw [if_pos h4]
    · rw [if_neg h4]

/-- C7 witness: the amended theorem instantiated at an empty type, a motor vehicle, IMS4 below and at the threshold, and an unrecognized type. -/
theorem C7_witness :
    determine_caf_rate [] [] "" "box" 1 "USD" =
      Except.error "Transaction type cannot be None" ∧
    determine_caf_rate [] [] "IM4" "Motor Vehicle" 999999 "EUR" = Except.ok 57500 ∧
    determine_caf_rate [] [] "IMS4" "box" 4999 "USD" = Except.ok 2500 ∧
    determine_caf_rate [] [] "IMS4" "box" 5000 "USD" = Except.ok 10000 ∧
    determine_caf_rate [] [] "FOO" "box" 1 "USD" = Except.ok 10000 :=
  ⟨(C7_amended [] [] "" "box" 1 "USD").1 rfl,
   (C7_amended [] [] "IM4" "Motor Vehicle" 999999 "EUR").2.1 (by decide) (by decide),
   ((C7_amended [] [] "IMS4" "box" 4999 "USD").2.2.1 (by decide) (by decide)
     (by decide) (by decide)).1 (by norm_num),
   ((C7_amended [] [] "IMS4" "box" 5000 "USD").2.2.1 (by decide) (by decide)
     (by decide) (by decide)).2 (by norm_num),
   (C7_amended [] [] "FOO" "box" 1 "USD").2.2.2 (by decide) (by decide) (by decide)⟩

/-- C8: resolving the base currency JMD returns exactly 1.0 and performs no date query and no rate-record query, for every currency map and rate table.  At runtime every resolution path returns the 1.0 default before the rate table can be reached: an unknown identifier returns it directly, and a known code raises NameError at the unbound SessionLocal before any query, which is caught and defaulted; this holds for JMD in particular. -/
theorem C8_base_currency_default : ∀ (m : List (String × String)) (fx : List FXRecord),
    fetch_currency_rate m fx "JMD" = 1 ∧ fetch_rate_queryCount m fx "JMD" = 0 := by
  intro m fx
  cases h : get_currency_code m "JMD" with
  | none =>
    exact ⟨by simp only [fetch_currency_rate, h], by simp only [fetch_rate_queryCount, h]⟩
  | some code =>
    exact ⟨by simp only [fetch_currency_rate, h], by simp only [fetch_rate_queryCount, h]⟩

/-- C9 counterexample: the claim says zero or negative rates are clamped so that no stage decreases any base or the total; with stage A rate -1 on cifBase 100 the stage A charge is -100, base2 drops to 0 below base1 = 100, and the total is -100, below zero. -/
theorem C9_counterexample :
    base_value_1 (100:ℚ) = 100 ∧
    ID_01_charge [("ID-01", -1)] 100 = -100 ∧
    base_value_2 [("ID-01", -1)] 100 = 0 ∧
    base_value_2 [("ID-01", -1)] 100 < base_value_1 (100:ℚ) ∧
    total_custom_charges [("ID-01", -1)] 100 0 = -100 ∧
    total_custom_charges [("ID-01", -1)] 100 0 < 0 := by
  have hb1 : base_value_1 (100:ℚ) = 100 := by
    unfold base_value_1; rw [round2_eval _ 10000 (by norm_num)]; norm_num
  have hr1 : rateOf [("ID-01", (-1:ℚ))] "ID-01" = -1 := by
    have e : rateOf [("ID-01", (-1:ℚ))] "ID-01" = decimalRate (-1) := rfl
    rw [e]
    unfold decimalRate
    rw [if_neg (by norm_num : ¬ (-1:ℚ) > 1)]
  have hid : ID_01_charge [("ID-01", (-1:ℚ))] 100 = -100 := by
    unfold ID_01_charge
    rw [hb1, hr1, round2_eval _ (-10000) (by norm_num)]; norm_num
  have hb2 : base_value_2 [("ID-01", (-1:ℚ))] 100 = 0 := by
    unfold base_value_2
    rw [hb1, hid]
    rw [show (100:ℚ) + -100 = 0 by norm_num, round2_zero]
  have hasd : ASD05_charge [("ID-01", (-1:ℚ))] 100 = 0 := by
    have e : rateOf [("ID-01", (-1:ℚ))] "ASD05" = 0 := rfl
    unfold ASD05_charge
    rw [e, mul_zero, round2_zero]
  have hscta : SCTA08_charge [("ID-01", (-1:ℚ))] 100 = 0 := by
    have e : rateOf [("ID-01", (-1:ℚ))] "SCTA08" = 0 := rfl
    unfold SCTA08_charge
    rw [e, mul_zero, round2_zero]
  have hscts : SCTS18_charge [("ID-01", (-1:ℚ))] 100 = 0 := by
    have e : rateOf [("ID-01", (-1:ℚ))] "SCTS18" = 0 := rfl
    unfold SCTS18_charge
    rw [e, mul_zero, round2_zero]
  have hsctf : SCTF028_charge [("ID-01", (-1:ℚ))] 100 = 0 := by
    have e : rateOf [("ID-01", (-1:ℚ))] "SCTF028" = 0 := rfl
    unfold SCTF028_charge
    rw [e, mul_zero, round2_zero]
  have hscf : SCF90_charge [("ID-01", (-1:ℚ))] 100 = 0 := by
    have e : rateOf [("ID-01", (-1:ℚ))] "SCF90" = 0 := rfl
    unfold SCF90_charge
    rw [e, mul_zero, round2_zero]
  have henv : ENVL20_charge [("ID-01", (-1:ℚ))] 100 = 0 := by
    have e : rateOf [("ID-01", (-1:ℚ))] "ENVL20" = 0 := rfl
    unfold ENVL20_charge
    rw [e, mul_zero, round2_zero]
  have hcaf : CAF_charge (0:ℚ) = 0 := by
    unfold CAF_charge base_value_3
    rw [round2_zero, zero_mul, round2_zero]
  have hb4 : base_value_4 [("ID-01", (-1:ℚ))] 100 0 = 0 := by
    unfold base_value_4
    rw [hb2, hasd, hscta, hscts, hsctf, hscf, henv, hcaf]
    rw [show (0:ℚ) + 0 + 0 + 0 + 0 + 0 + 0 + 0 = 0 by norm_num, round2_zero]
  have hgct : GCT_06_charge [("ID-01", (-1:ℚ))] 100 0 = 0 := by
    have e : rateOf [("ID-01", (-1:ℚ))] "GCT 06" = 0 := rfl
    unfold GCT_06_charge
    rw [e, mul_zero, round2_zero]
  have hexc : EXC023_charge [("ID-01", (-1:ℚ))] 100 0 = 0 := by
    have e : rateOf [("ID-01", (-1:ℚ))] "EXC023" = 0 := rfl
    unfold EXC023_charge
    rw [e, mul_zero, round2_zero]
  have htot : total_custom_charges [("ID-01", (-1:ℚ))] 100 0 = -100 := by
    unfold total_custom_charges
    rw [hid, hasd, hgct, hexc, hscta, hscts, hsctf, hscf, henv, hcaf]
    rw [show (-100:ℚ) + 0 + 0 + 0 + 0 + 0 + 0 + 0 + 0 + 0 = -100 by norm_num]
    rw [round2_eval _ (-10000) (by norm_num)]; norm_num
  refine ⟨hb1, hid, hb2, ?_, htot, ?_⟩
  · rw [hb1, hb2]; norm_num
  · rw [htot]; norm_num

/-- C9 amended: a schedule rate greater than 1 is divided by 100 and any other value passes through unchanged with no clamping; a missing stage contributes rate 0, and a zero stage A rate leaves the charge at 0 and base2 equal to base1, but negative rates are not clamped. -/
theorem C9_amended :
    (∀ (tr : List (String × ℚ)) (k : String) (v : ℚ), tr.lookup k = some v →
      rateOf tr k = (if v > 1 then v / 100 else v)) ∧
    (∀ (tr : List (String × ℚ)) (k : String), tr.lookup k = none → rateOf tr k = 0) ∧
    (∀ (tr : List (String × ℚ)) (cif : ℚ), rateOf tr "ID-01" = 0 →
      ID_01_charge tr cif = 0 ∧ base_value_2 tr cif = base_value_1 cif) := by
  refine ⟨?_, ?_, ?_⟩
  · intro tr k v h
    simp only [rateOf, h, decimalRate]
  · intro tr k h
    simp only [rateOf, h]
  · intro tr cif h
    have hid : ID_01_charge tr cif = 0 := by
      unfold ID_01_charge
      rw [h, mul_zero, round2_zero]
    refine ⟨hid, ?_⟩
    unfold base_value_2
    rw [hid, add_zero]
    exact round2_round2 cif

/-- C9 witness: the amended theorem instantiated at rate 5, at a missing stage, and at a zero stage A rate. -/
theorem C9_witness :
    rateOf [("ID-01", 5)] "ID-01" = (if (5:ℚ) > 1 then (5:ℚ) / 100 else 5) ∧
    rateOf [] "GCT 06" = 0 ∧
    ID_01_charge [] 7 = 0 ∧ base_value_2 [] 7 = base_value_1 7 :=
  ⟨C9_amended.1 [("ID-01", 5)] "ID-01" 5 rfl,
   C9_amended.2.1 [] "GCT 06" rfl,
   (C9_amended.2.2 [] 7 rfl).1, (C9_amended.2.2 [] 7 rfl).2⟩

/-- C10 counterexample: the claim says the returned mapping always contains base-value entries for positive cifBase; at cifBase 0.001 the 2-decimal rounding sends every entry to 0 and the returned mapping is empty. -/
theorem C10_counterexample :
    (0:ℚ) < 1/1000 ∧ (calculate_custom_charges [] (1/1000) 0).1 = [] := by
  have hb1 : base_value_1 ((1:ℚ)/1000) = 0 := by
    unfold base_value_1
    rw [round2_eval_lt _ 0 (by norm_num) (by norm_num)]
    norm_num
  have hz : ∀ p ∈ ([] : List (String × ℚ)), p.2 = 0 := by
    intro p hp
    exact absurd hp (List.not_mem_nil p)
  obtain ⟨hid, hasd, hscta, hscts, hsctf, hscf, henv, hcaf, hgct, hexc, htot, hb2, hb4⟩ :=
    allzero_facts [] (1/1000) hz
  have hr0 : round2 ((1:ℚ)/1000) = 0 := hb1
  rw [hr0] at hb2 hb4
  have hb3 : base_value_3 (0:ℚ) = 0 := round2_zero
  have d0 : decide ((0:ℚ) < 0) = false := decide_eq_false (by norm_num)
  refine ⟨by norm_num, ?_⟩
  simp only [calculate_custom_charges, charges_result, hb1, hb2, hb3, hb4, hid,
    hasd, hscta, hscts, hsctf, hscf, henv, hcaf, hgct, hexc, htot,
    List.filter, d0]

/-- C10 amended: the returned mapping is the strict-positivity filter of the full result dictionary (base values, stage charges and grand total); the base-value-1 entry is present whenever the rounded cifBase is positive, and the total entry is absent whenever the computed total is not strictly positive. -/
theorem C10_amended :
    (∀ (tr : List (String × ℚ)) (cif caf : ℚ), (calculate_custom_charges tr cif caf).1 =
      (charges_result tr cif caf).filter fun p => decide (0 < p.2)) ∧
    (∀ (tr : List (String × ℚ)) (cif caf : ℚ), 0 < round2 cif →
      ((calculate_custom_charges tr cif caf).1).lookup "base_value_1 (CIF)" =
        some (round2 cif)) ∧
    (∀ (tr : List (String × ℚ)) (cif caf : ℚ), total_custom_charges tr cif caf ≤ 0 →
      ((calculate_custom_charges tr cif caf).1).lookup "total_custom_charges" = none) := by
  refine ⟨fun tr cif caf => rfl, ?_, ?_⟩
  · intro tr cif caf h
    have hb1 : base_value_1 cif = round2 cif := rfl
    simp only [calculate_custom_charges, charges_result]
    have hd : decide (0 < base_value_1 cif) = true := decide_eq_true h
    simp only [List.filter, hd]
    simp only [List.lookup, beq_self_eq_true, hb1]
  · intro tr cif caf h
    apply lookup_filter_none
    intro p hp hk
    simp only [charges_result, List.mem_cons] at hp
    rcases hp with h1|h2|h3|h4|h5|h6|h7|h8|h9|h10|h11|h12|h13|h14|h15|h16
    · rw [h1] at hk
      exact absurd (show ("base_value_1 (CIF)" : String) = "total_custom_charges" from hk) (by decide)
    · rw [h2] at hk
      exact absurd (show ("base_value_2 (CIF + ID-01)" : String) = "total_custom_charges" from hk) (by decide)
    · rw [h3] at hk
      exact absurd (show ("base_value_3 (CAF)" : String) = "total_custom_charges" from hk) (by decide)
    · rw [h4] at hk
      exact absurd (show ("base_value_4 (all charges)" : String) = "total_custom_charges" from hk) (by decide)
    · rw [h5] at hk
      exact absurd (show ("ID-01" : String) = "total_custom_charges" from hk) (by decide)
    · rw [h6] at hk
      exact absurd (show ("ASD05" : String) = "total_custom_charges" from hk) (by decide)
    · rw [h7] at hk
      exact absurd (show ("GCT 06" : String) = "total_custom_charges" from hk) (by decide)
    · rw [h8] at hk
      exact absurd (show ("EXC023" : String) = "total_custom_charges" from hk) (by decide)
    · rw [h9] at hk
      exact absurd (show ("SCTA08" : String) = "total_custom_charges" from hk) (by decide)
    · rw [h10] at hk
      exact absurd (show ("SCTS18" : String) = "total_custom_charges" from hk) (by decide)
    · rw [h11] at hk
      exact absurd (show ("SCTF028" : String) = "total_custom_charges" from hk) (by decide)
    · rw [h12] at hk
      exact absurd (show ("SCF90" : String) = "total_custom_charges" from hk) (by decide)
    · rw [h13] at hk
      exact absurd (show ("ENVL20" : String) = "total_custom_charges" from hk) (by decide)
    · rw [h14] at hk
      exact absurd (show ("CAF_charge" : String) = "total_custom_charges" from hk) (by decide)
    · rw [h15]; exact h
    · exact absurd h16 (List.not_mem_nil p)

/-- C10 witness: the amended theorem instantiated at cifBase 100 with the empty schedule, where the base entry is present and the zero total is filtered out. -/
theorem C10_witness :
    ((calculate_custom_charges [] 100 0).1).lookup "base_value_1 (CIF)" =
      some (round2 (100:ℚ)) ∧
    ((calculate_custom_charges [] 100 0).1).lookup "total_custom_charges" = none := by
  have hz : ∀ p ∈ ([] : List (String × ℚ)), p.2 = 0 := by
    intro p hp
    exact absurd hp (List.not_mem_nil p)
  have hpos : 0 < round2 (100:ℚ) := by
    rw [round2_eval _ 10000 (by norm_num)]; norm_num
  have htot : total_custom_charges [] 100 0 = 0 :=
    (allzero_facts [] 100 hz).2.2.2.2.2.2.2.2.2.2.1
  exact ⟨C10_amended.2.1 [] 100 0 hpos,
    C10_amended.2.2 [] 100 0 (le_of_eq htot)⟩
